import Mathlib

/-!
Verification of the derived-metrics core of `streamlit_app.py`
(whole-body MRI segmentation analysis).

The embedding models the Python script faithfully:
* voxel intensities and header spacings are rationals (the script's
  floating-point arithmetic has no rounding-sensitive content here);
* a Python value that is either `None` or a number is `PyVal`;
* arithmetic on `PyVal` returns `Except String PyVal`, raising
  `"TypeError"` when an operand is `None` and `"ZeroDivisionError"`
  on a zero divisor, exactly as CPython does;
* Python truthiness (`if voxel_count`, `if volume`) is `truthy`;
* the per-file loop of `analyze_voxel_data` is a left fold over the
  uploaded files, keeping the dict `voxel_data` (modelled as an
  association list where insertion prepends and lookup takes the
  first hit, matching dict overwrite semantics) and the last-seen
  `voxel_volume`;
* the top-level upload gate (name check, count check) is `app_gate`.
-/

/-- One uploaded NIfTI file as the computation sees it: its name, the
flattened voxel intensity data returned by `img.get_fdata()`, and the
three header spacings returned by `img.header.get_zooms()`. -/
structure UploadedFile where
  name : String
  data : List ℚ
  zoom0 : ℚ
  zoom1 : ℚ
  zoom2 : ℚ
deriving DecidableEq

/-- `file_names` from the script: the three recognized file names. -/
def file_names : List String :=
  ["skeletal_muscle.nii.gz", "subcutaneous_fat.nii.gz", "torso_fat.nii.gz"]

/-- Fat density constant `masse_vol_graisse = 0.9196` (kg/cm³ scale). -/
def masse_vol_graisse : ℚ := 9196 / 10000

/-- Muscle density constant `masse_vol_muscle = 1.06` (kg/cm³ scale). -/
def masse_vol_muscle : ℚ := 106 / 100

def muscle_name : String := "skeletal_muscle.nii.gz"
def subcut_name : String := "subcutaneous_fat.nii.gz"
def torso_name : String := "torso_fat.nii.gz"

/-- A Python value in the metric pipeline: `None` or a number. -/
inductive PyVal where
  | vnone : PyVal
  | vnum : ℚ → PyVal
deriving DecidableEq

/-- Python truthiness: `None` and `0` are falsy, other numbers truthy. -/
def truthy : PyVal → Bool
  | .vnone => false
  | .vnum q => decide (q ≠ 0)

/-- Python `*` on number-or-None values: `TypeError` if an operand is
`None`. -/
def pmul : PyVal → PyVal → Except String PyVal
  | .vnum a, .vnum b => .ok (.vnum (a * b))
  | _, _ => .error "TypeError"

/-- Python `+` on number-or-None values: `TypeError` if an operand is
`None`. -/
def padd : PyVal → PyVal → Except String PyVal
  | .vnum a, .vnum b => .ok (.vnum (a + b))
  | _, _ => .error "TypeError"

/-- Python `/` on number-or-None values: `TypeError` if an operand is
`None`, `ZeroDivisionError` on a zero divisor. -/
def pdiv : PyVal → PyVal → Except String PyVal
  | .vnum a, .vnum b =>
      if b = 0 then .error "ZeroDivisionError" else .ok (.vnum (a / b))
  | _, _ => .error "TypeError"

/-- `(data > 0).sum()`: the number of voxels of strictly positive
intensity. -/
def voxel_count (f : UploadedFile) : ℕ :=
  f.data.countP (fun x => decide (0 < x))

/-- `abs(zooms[0]*zooms[1]*zooms[2]) / 1000`: physical volume of one
voxel in cm³. -/
def voxel_volume_of (f : UploadedFile) : ℚ :=
  |f.zoom0 * f.zoom1 * f.zoom2| / 1000

/-- The loop state of `analyze_voxel_data`: the dict `voxel_data`
(name ↦ count) and the variable `voxel_volume` (initially `None`). -/
structure AnalysisState where
  voxel_data : List (String × ℕ)
  voxel_volume : PyVal

/-- `voxel_data.get(k, 0)`: dict lookup with default `0` (the dict is
an association list where insertion prepends, so the first hit is the
most recent write). -/
def dget : List (String × ℕ) → String → ℕ
  | [], _ => 0
  | p :: rest, k => if p.1 = k then p.2 else dget rest k

/-- One iteration of the `for uploaded_file in uploaded_files` loop:
a recognized file stores its positive-voxel count under its name and
overwrites `voxel_volume`; any other file is skipped. -/
def processFile (st : AnalysisState) (f : UploadedFile) : AnalysisState :=
  if f.name ∈ file_names then
    { voxel_data := (f.name, voxel_count f) :: st.voxel_data,
      voxel_volume := .vnum (voxel_volume_of f) }
  else st

def initState : AnalysisState := ⟨[], .vnone⟩

/-- The whole file loop of `analyze_voxel_data`. -/
def processFiles (files : List UploadedFile) : AnalysisState :=
  files.foldl processFile initState

/-- `count * voxel_volume if count else None` (lines 61-63). -/
def volExpr (count : ℕ) (vv : PyVal) : Except String PyVal :=
  if count = 0 then .ok .vnone else pmul (.vnum (count : ℚ)) vv

/-- `volume * density / 1000 if volume else None` (lines 70-77). -/
def massExpr (vol : PyVal) (density : ℚ) : Except String PyVal :=
  if truthy vol then
    match pmul vol (.vnum density) with
    | .ok a => pdiv a (.vnum 1000)
    | .error e => .error e
  else .ok .vnone

/-- Lines 57-78 of `analyze_voxel_data`: from the three counts and the
retained voxel volume, build the 8-entry result list, in the source's
evaluation order.  A raised Python exception is an `.error`. -/
def computeResult (c_m c_v c_s : ℕ) (vv : PyVal) :
    Except String (List (String × PyVal)) :=
  (volExpr c_m vv).bind fun volume_muscle =>
  (volExpr c_v vv).bind fun volume_graisse_viscerale =>
  (volExpr c_s vv).bind fun volume_graisse_sous_cut =>
  (massExpr volume_muscle masse_vol_muscle).bind fun masse_m =>
  (massExpr volume_graisse_sous_cut masse_vol_graisse).bind fun masse_sc =>
  (massExpr volume_graisse_viscerale masse_vol_graisse).bind fun masse_v =>
  (pdiv masse_sc masse_v).bind fun rapport_sc_v =>
  (padd masse_sc masse_v).bind fun graisse_totale =>
  (pdiv graisse_totale masse_m).bind fun rapport_g_m =>
  .ok [("Volume Muscle (cm³)", volume_muscle),
       ("Volume Graisse Sous-cutanée (cm³)", volume_graisse_sous_cut),
       ("Volume Graisse Viscerale (cm³)", volume_graisse_viscerale),
       ("Masse Muscle (kg)", masse_m),
       ("Masse Graisse Sous-cutanée (kg)", masse_sc),
       ("Masse Graisse Viscerale (kg)", masse_v),
       ("Rapport Graisse Sous-cutanée / Viscerale", rapport_sc_v),
       ("Rapport Graisse / Muscle", rapport_g_m)]

/-- The retained positive-voxel count for a role name
(`voxel_data.get(name, 0)`). -/
def roleCount (files : List UploadedFile) (role : String) : ℕ :=
  dget (processFiles files).voxel_data role

/-- The volume computed for a role name from the retained state. -/
def roleVolume (files : List UploadedFile) (role : String) :
    Except String PyVal :=
  volExpr (roleCount files role) (processFiles files).voxel_volume

/-- `analyze_voxel_data` without the UI glue: the result rows of the
DataFrame, or the raised exception. -/
def analyze_voxel_data (files : List UploadedFile) :
    Except String (List (String × PyVal)) :=
  computeResult (roleCount files muscle_name) (roleCount files torso_name)
    (roleCount files subcut_name) (processFiles files).voxel_volume

/-- `Masse Muscle` as a standalone value. -/
def masse_muscle (files : List UploadedFile) : Except String PyVal :=
  (roleVolume files muscle_name).bind fun v => massExpr v masse_vol_muscle

/-- `Masse Graisse Sous-cutanée` as a standalone value. -/
def masse_graisse_sous_cut (files : List UploadedFile) : Except String PyVal :=
  (roleVolume files subcut_name).bind fun v => massExpr v masse_vol_graisse

/-- `Masse Graisse Viscerale` as a standalone value. -/
def masse_graisse_viscerale (files : List UploadedFile) : Except String PyVal :=
  (roleVolume files torso_name).bind fun v => massExpr v masse_vol_graisse

/-- Outcome of the top-level upload gate (lines 122-141). -/
inductive GateOutcome where
  | noDisplay : GateOutcome
  | nameError : List String → List String → GateOutcome
  | countWarning : GateOutcome
  | results : Except String (List (String × PyVal)) → GateOutcome

/-- `missing_files`: required names absent from the upload set. -/
def missing_files (files : List UploadedFile) : List String :=
  file_names.filter (fun f => decide (f ∉ files.map UploadedFile.name))

/-- `extra_files`: uploaded names that are not recognized. -/
def extra_files (files : List UploadedFile) : List String :=
  (files.map UploadedFile.name).filter (fun f => decide (f ∉ file_names))

/-- The top-level gate: empty upload shows nothing; mismatched names
show the error with the missing and extra lists; exactly three files
with matching names run the analysis; otherwise a warning. -/
def app_gate (files : List UploadedFile) : GateOutcome :=
  if files = [] then .noDisplay
  else if missing_files files ≠ [] ∨ extra_files files ≠ [] then
    .nameError (missing_files files) (extra_files files)
  else if files.length = 3 then .results (analyze_voxel_data files)
  else .countWarning

/-- The last recognized file of the upload list, whose voxel volume is
the one the loop retains. -/
def lastRec : List UploadedFile → Option UploadedFile
  | [] => none
  | f :: rest =>
    match lastRec rest with
    | some g => some g
    | none => if f.name ∈ file_names then some f else none

instance exceptDecEq {ε α : Type} [DecidableEq ε] [DecidableEq α] :
    DecidableEq (Except ε α) := fun x y =>
  match x, y with
  | .ok a, .ok b =>
      if h : a = b then .isTrue (by rw [h])
      else .isFalse (fun hh => h (Except.ok.inj hh))
  | .error a, .error b =>
      if h : a = b then .isTrue (by rw [h])
      else .isFalse (fun hh => h (Except.error.inj hh))
  | .ok _, .error _ => .isFalse (fun hh => Except.noConfusion hh)
  | .error _, .ok _ => .isFalse (fun hh => Except.noConfusion hh)

lemma volExpr_zero (vv : PyVal) : volExpr 0 vv = .ok .vnone := rfl

lemma volExpr_pos {c : ℕ} (q : ℚ) (h : c ≠ 0) :
    volExpr c (.vnum q) = .ok (.vnum ((c : ℚ) * q)) := by
  simp [volExpr, pmul, h]

lemma volExpr_num_isOk (c : ℕ) (q : ℚ) : ∃ x, volExpr c (.vnum q) = .ok x := by
  unfold volExpr
  split
  · exact ⟨.vnone, rfl⟩
  · exact ⟨.vnum ((c : ℚ) * q), rfl⟩

lemma massExpr_none (d : ℚ) : massExpr .vnone d = .ok .vnone := rfl

lemma massExpr_zero (d : ℚ) : massExpr (.vnum 0) d = .ok .vnone := by
  simp [massExpr, truthy]

lemma massExpr_pos {v : ℚ} (d : ℚ) (h : v ≠ 0) :
    massExpr (.vnum v) d = .ok (.vnum (v * d / 1000)) := by
  simp [massExpr, truthy, h, pmul, pdiv]

lemma massExpr_isOk (v : PyVal) (d : ℚ) : ∃ y, massExpr v d = .ok y := by
  cases v with
  | vnone => exact ⟨.vnone, rfl⟩
  | vnum q =>
    by_cases h : q = 0
    · subst h; exact ⟨.vnone, massExpr_zero d⟩
    · exact ⟨.vnum (q * d / 1000), massExpr_pos d h⟩

lemma pdiv_none_right (v : PyVal) : pdiv v .vnone = .error "TypeError" := by
  cases v <;> rfl

lemma pdiv_none_left (v : PyVal) : pdiv .vnone v = .error "TypeError" := by
  cases v <;> rfl

lemma pdiv_num {b : ℚ} (a : ℚ) (h : b ≠ 0) :
    pdiv (.vnum a) (.vnum b) = .ok (.vnum (a / b)) := by
  simp [pdiv, h]

lemma padd_num (a b : ℚ) : padd (.vnum a) (.vnum b) = .ok (.vnum (a + b)) := rfl

lemma Except_bind_ok {α β γ : Type} {x : Except γ α} {f : α → Except γ β}
    {b : β} (h : x.bind f = .ok b) : ∃ a, x = .ok a ∧ f a = .ok b := by
  cases x with
  | ok a => exact ⟨a, rfl, h⟩
  | error e => simp [Except.bind] at h

lemma dget_nil (k : String) : dget [] k = 0 := rfl

lemma dget_cons_ne {k role : String} (v : ℕ) (d : List (String × ℕ))
    (h : k ≠ role) : dget ((k, v) :: d) role = dget d role := by
  simp [dget, h]

lemma roleCount_absent_aux (role : String) :
    ∀ (files : List UploadedFile) (st : AnalysisState),
      (∀ f ∈ files, f.name ≠ role) →
      dget (files.foldl processFile st).voxel_data role =
        dget st.voxel_data role := by
  intro files
  induction files with
  | nil => intro st _; rfl
  | cons f rest ih =>
    intro st h
    rw [List.foldl_cons, ih _ (fun g hg => h g (List.mem_cons_of_mem f hg))]
    unfold processFile
    split
    · exact dget_cons_ne _ _ (h f (List.mem_cons_self f rest))
    · rfl

lemma inv_aux : ∀ (files : List UploadedFile) (st : AnalysisState),
    (st.voxel_volume = .vnone → st.voxel_data = []) →
    ((files.foldl processFile st).voxel_volume = .vnone →
      (files.foldl processFile st).voxel_data = []) := by
  intro files
  induction files with
  | nil => intro st h; exact h
  | cons f rest ih =>
    intro st h
    rw [List.foldl_cons]
    apply ih
    unfold processFile
    split
    · intro hv; simp at hv
    · exact h

lemma count_zero_of_vv_none {files : List UploadedFile} (role : String)
    (h : (processFiles files).voxel_volume = .vnone) :
    roleCount files role = 0 := by
  have hdata := inv_aux files initState (fun _ => rfl) h
  unfold roleCount processFiles
  rw [hdata]
  rfl

lemma vv_vnum_of_pos {files : List UploadedFile} {role : String}
    (h : 0 < roleCount files role) :
    ∃ q, (processFiles files).voxel_volume = .vnum q := by
  cases hv : (processFiles files).voxel_volume with
  | vnone => exact absurd (count_zero_of_vv_none role hv) (by omega)
  | vnum q => exact ⟨q, rfl⟩

lemma lastRec_vv : ∀ (files : List UploadedFile) (st : AnalysisState),
    (files.foldl processFile st).voxel_volume =
      (match lastRec files with
       | some g => .vnum (voxel_volume_of g)
       | none => st.voxel_volume) := by
  intro files
  induction files with
  | nil => intro st; rfl
  | cons f rest ih =>
    intro st
    rw [List.foldl_cons, ih]
    cases hl : lastRec rest with
    | some g => simp [lastRec, hl]
    | none =>
      by_cases hf : f.name ∈ file_names <;>
        simp [lastRec, hl, processFile, hf]

lemma lastRec_mem : ∀ {files : List UploadedFile} {g : UploadedFile},
    lastRec files = some g → g ∈ files := by
  intro files
  induction files with
  | nil => intro g h; simp [lastRec] at h
  | cons f rest ih =>
    intro g h
    cases hl : lastRec rest with
    | some gg =>
      simp [lastRec, hl] at h
      subst h
      exact List.mem_cons_of_mem f (ih hl)
    | none =>
      simp [lastRec, hl] at h
      obtain ⟨hf, hfg⟩ := h
      subst hfg
      exact List.mem_cons_self f rest

lemma computeResult_pos (c_m c_v c_s : ℕ) (q : ℚ)
    (hm : c_m ≠ 0) (hv : c_v ≠ 0) (hs : c_s ≠ 0) (hq : q ≠ 0) :
    computeResult c_m c_v c_s (.vnum q) =
      .ok [("Volume Muscle (cm³)", .vnum ((c_m : ℚ) * q)),
           ("Volume Graisse Sous-cutanée (cm³)", .vnum ((c_s : ℚ) * q)),
           ("Volume Graisse Viscerale (cm³)", .vnum ((c_v : ℚ) * q)),
           ("Masse Muscle (kg)", .vnum ((c_m : ℚ) * q * masse_vol_muscle / 1000)),
           ("Masse Graisse Sous-cutanée (kg)",
             .vnum ((c_s : ℚ) * q * masse_vol_graisse / 1000)),
           ("Masse Graisse Viscerale (kg)",
             .vnum ((c_v : ℚ) * q * masse_vol_graisse / 1000)),
           ("Rapport Graisse Sous-cutanée / Viscerale",
             .vnum (((c_s : ℚ) * q * masse_vol_graisse / 1000) /
                    ((c_v : ℚ) * q * masse_vol_graisse / 1000))),
           ("Rapport Graisse / Muscle",
             .vnum (((c_s : ℚ) * q * masse_vol_graisse / 1000 +
                     (c_v : ℚ) * q * masse_vol_graisse / 1000) /
                    ((c_m : ℚ) * q * masse_vol_muscle / 1000)))] := by
  have hmq : (c_m : ℚ) * q ≠ 0 := mul_ne_zero (Nat.cast_ne_zero.mpr hm) hq
  have hvq : (c_v : ℚ) * q ≠ 0 := mul_ne_zero (Nat.cast_ne_zero.mpr hv) hq
  have hsq : (c_s : ℚ) * q ≠ 0 := mul_ne_zero (Nat.cast_ne_zero.mpr hs) hq
  have hgne : masse_vol_graisse ≠ 0 := by norm_num [masse_vol_graisse]
  have hmne : masse_vol_muscle ≠ 0 := by norm_num [masse_vol_muscle]
  have hmv : (c_v : ℚ) * q * masse_vol_graisse / 1000 ≠ 0 :=
    div_ne_zero (mul_ne_zero hvq hgne) (by norm_num)
  have hmm : (c_m : ℚ) * q * masse_vol_muscle / 1000 ≠ 0 :=
    div_ne_zero (mul_ne_zero hmq hmne) (by norm_num)
  simp only [computeResult, volExpr_pos q hm, volExpr_pos q hv,
    volExpr_pos q hs, massExpr_pos _ hmq, massExpr_pos _ hsq,
    massExpr_pos _ hvq, pdiv_num _ hmv, pdiv_num _ hmm, padd_num,
    Except.bind]

lemma vv_pos_of_files {files : List UploadedFile}
    (h : ∀ f ∈ files, 0 < voxel_volume_of f) :
    (processFiles files).voxel_volume = .vnone ∨
      ∃ q, (processFiles files).voxel_volume = .vnum q ∧ 0 < q := by
  have hlv := lastRec_vv files initState
  unfold processFiles
  rw [hlv]
  cases hl : lastRec files with
  | none => exact Or.inl rfl
  | some g => exact Or.inr ⟨voxel_volume_of g, rfl, h g (lastRec_mem hl)⟩

lemma roleVolume_vnum {files : List UploadedFile} {role : String} {v : ℚ}
    (h : roleVolume files role = .ok (.vnum v)) :
    roleCount files role ≠ 0 ∧
      ∃ q, (processFiles files).voxel_volume = .vnum q ∧
        v = (roleCount files role : ℚ) * q := by
  unfold roleVolume volExpr at h
  split at h
  · exact absurd h (by simp)
  · rename_i hc
    cases hvv : (processFiles files).voxel_volume with
    | vnone => rw [hvv] at h; exact absurd h (by simp [pmul])
    | vnum q =>
      rw [hvv] at h
      simp [pmul] at h
      exact ⟨hc, q, rfl, h.symm⟩

lemma mass_of_volume {files : List UploadedFile} {role : String} (d : ℚ)
    (hpos : ∀ f ∈ files, 0 < voxel_volume_of f) :
    (roleVolume files role = .ok .vnone →
      (roleVolume files role).bind (fun v => massExpr v d) = .ok .vnone) ∧
    (∀ v, roleVolume files role = .ok (.vnum v) →
      (roleVolume files role).bind (fun v => massExpr v d) =
        .ok (.vnum (v * d / 1000))) := by
  constructor
  · intro h
    rw [h]
    simp [Except.bind, massExpr_none]
  · intro v h
    obtain ⟨hc, q, hq, hv⟩ := roleVolume_vnum h
    have hq0 : 0 < q := by
      rcases vv_pos_of_files hpos with hn | ⟨q2, hq2, hq2p⟩
      · rw [hn] at hq; exact absurd hq (by simp)
      · rw [hq2] at hq
        injection hq with hqq
        exact hqq ▸ hq2p
    have hvne : v ≠ 0 := by
      rw [hv]
      exact mul_ne_zero (Nat.cast_ne_zero.mpr hc) (ne_of_gt hq0)
    rw [h]
    simp [Except.bind, massExpr_pos d hvne]

/-- C1: for each tissue role, the computed volume equals the retained
voxel count times the retained voxel volume when the role's sample is
present with a positive count; it is `None` when the sample is absent;
and a present sample with retained count `0` also yields `None`. -/
theorem C1_volume_presence (files : List UploadedFile) (role : String)
    (hrole : role ∈ file_names) :
    ((∃ f ∈ files, f.name = role) →
      (0 < roleCount files role →
        ∃ q, (processFiles files).voxel_volume = .vnum q ∧
          roleVolume files role =
            .ok (.vnum ((roleCount files role : ℚ) * q))) ∧
      (roleCount files role = 0 → roleVolume files role = .ok .vnone)) ∧
    ((∀ f ∈ files, f.name ≠ role) →
      roleCount files role = 0 ∧ roleVolume files role = .ok .vnone) := by
  constructor
  · intro _
    constructor
    · intro hpos
      obtain ⟨q, hq⟩ := vv_vnum_of_pos hpos
      refine ⟨q, hq, ?_⟩
      rw [roleVolume, hq, volExpr_pos q (by omega)]
    · intro h0
      rw [roleVolume, h0]
      exact volExpr_zero _
  · intro habs
    have hc : roleCount files role = 0 := by
      have hstep := roleCount_absent_aux role files initState habs
      unfold roleCount processFiles
      rw [hstep]
      rfl
    refine ⟨hc, ?_⟩
    rw [roleVolume, hc]
    exact volExpr_zero _

theorem C1_witness :
    (∃ q, (processFiles [⟨"skeletal_muscle.nii.gz", [2], 10, 10, 10⟩]).voxel_volume
        = .vnum q ∧
      roleVolume [⟨"skeletal_muscle.nii.gz", [2], 10, 10, 10⟩] muscle_name =
        .ok (.vnum ((roleCount [⟨"skeletal_muscle.nii.gz", [2], 10, 10, 10⟩]
          muscle_name : ℚ) * q))) ∧
    (roleCount [⟨"skeletal_muscle.nii.gz", [2], 10, 10, 10⟩] torso_name = 0 ∧
      roleVolume [⟨"skeletal_muscle.nii.gz", [2], 10, 10, 10⟩] torso_name =
        .ok .vnone) := by
  constructor
  · exact ((C1_volume_presence _ muscle_name (by decide)).1
      ⟨⟨"skeletal_muscle.nii.gz", [2], 10, 10, 10⟩, by decide, by decide⟩).1
      (by decide)
  · exact (C1_volume_presence _ torso_name (by decide)).2 (by decide)

/-- C2: for each tissue role, the mass is volume × density / 1000 when
the volume is a number, and `None` when the volume is `None`, under the
input contract that every uploaded file has a positive voxel volume;
muscle uses density 1.06 and both fat roles use density 0.9196. -/
theorem C2_mass_density (files : List UploadedFile)
    (hpos : ∀ f ∈ files, 0 < voxel_volume_of f) :
    ((roleVolume files muscle_name = .ok .vnone →
        masse_muscle files = .ok .vnone) ∧
      (∀ v, roleVolume files muscle_name = .ok (.vnum v) →
        masse_muscle files = .ok (.vnum (v * masse_vol_muscle / 1000)))) ∧
    ((roleVolume files subcut_name = .ok .vnone →
        masse_graisse_sous_cut files = .ok .vnone) ∧
      (∀ v, roleVolume files subcut_name = .ok (.vnum v) →
        masse_graisse_sous_cut files =
          .ok (.vnum (v * masse_vol_graisse / 1000)))) ∧
    ((roleVolume files torso_name = .ok .vnone →
        masse_graisse_viscerale files = .ok .vnone) ∧
      (∀ v, roleVolume files torso_name = .ok (.vnum v) →
        masse_graisse_viscerale files =
          .ok (.vnum (v * masse_vol_graisse / 1000)))) ∧
    masse_vol_muscle = 106 / 100 ∧ masse_vol_graisse = 9196 / 10000 := by
  refine ⟨?_, ?_, ?_, rfl, rfl⟩ <;> exact mass_of_volume _ hpos

theorem C2_witness :
    masse_muscle [⟨"skeletal_muscle.nii.gz", [1], 10, 10, 10⟩] =
      .ok (.vnum (1 * masse_vol_muscle / 1000)) := by
  refine (C2_mass_density _ ?_).1.2 1 ?_
  · intro f hf
    simp only [List.mem_singleton] at hf
    subst hf
    norm_num [voxel_volume_of]
  · norm_num [roleVolume, roleCount, processFiles, processFile, file_names,
      initState, dget, voxel_count, voxel_volume_of, muscle_name, volExpr, pmul]

/-- C3: when all three masses are computable (positive counts, nonzero
voxel volume), the two ratios are subcutaneous/visceral mass and
(subcutaneous + visceral)/muscle mass; on the fixture counts
(muscle 1000000, visceral 200000, subcutaneous 500000) with voxel
volume 1/1000 cm³ the outputs are 1000, 500, 200 cm³, 1.06, 0.4598,
0.18392 kg, ratio 5/2 = 2.5 and ratio 16093/26500 ≈ 0.6073. -/
theorem C3_ratios_fixture (c_m c_v c_s : ℕ) (q : ℚ)
    (hm : c_m ≠ 0) (hv : c_v ≠ 0) (hs : c_s ≠ 0) (hq : q ≠ 0) :
    computeResult c_m c_v c_s (.vnum q) =
      .ok [("Volume Muscle (cm³)", .vnum ((c_m : ℚ) * q)),
           ("Volume Graisse Sous-cutanée (cm³)", .vnum ((c_s : ℚ) * q)),
           ("Volume Graisse Viscerale (cm³)", .vnum ((c_v : ℚ) * q)),
           ("Masse Muscle (kg)",
             .vnum ((c_m : ℚ) * q * masse_vol_muscle / 1000)),
           ("Masse Graisse Sous-cutanée (kg)",
             .vnum ((c_s : ℚ) * q * masse_vol_graisse / 1000)),
           ("Masse Graisse Viscerale (kg)",
             .vnum ((c_v : ℚ) * q * masse_vol_graisse / 1000)),
           ("Rapport Graisse Sous-cutanée / Viscerale",
             .vnum (((c_s : ℚ) * q * masse_vol_graisse / 1000) /
                    ((c_v : ℚ) * q * masse_vol_graisse / 1000))),
           ("Rapport Graisse / Muscle",
             .vnum (((c_s : ℚ) * q * masse_vol_graisse / 1000 +
                     (c_v : ℚ) * q * masse_vol_graisse / 1000) /
                    ((c_m : ℚ) * q * masse_vol_muscle / 1000)))] ∧
    computeResult 1000000 200000 500000 (.vnum (1 / 1000)) =
      .ok [("Volume Muscle (cm³)", .vnum 1000),
           ("Volume Graisse Sous-cutanée (cm³)", .vnum 500),
           ("Volume Graisse Viscerale (cm³)", .vnum 200),
           ("Masse Muscle (kg)", .vnum (106 / 100)),
           ("Masse Graisse Sous-cutanée (kg)", .vnum (4598 / 10000)),
           ("Masse Graisse Viscerale (kg)", .vnum (18392 / 100000)),
           ("Rapport Graisse Sous-cutanée / Viscerale", .vnum (5 / 2)),
           ("Rapport Graisse / Muscle", .vnum (16093 / 26500))] ∧
    |(16093 : ℚ) / 26500 - 6073 / 10000| < 1 / 10000 := by
  refine ⟨computeResult_pos c_m c_v c_s q hm hv hs hq, ?_,
    by rw [abs_lt]; constructor <;> norm_num⟩
  norm_num [computeResult, volExpr, massExpr, truthy, pmul, pdiv, padd,
    Except.bind, masse_vol_muscle, masse_vol_graisse]

theorem C3_witness :
    computeResult 1000000 200000 500000 (.vnum (1 / 1000)) =
      .ok [("Volume Muscle (cm³)", .vnum 1000),
           ("Volume Graisse Sous-cutanée (cm³)", .vnum 500),
           ("Volume Graisse Viscerale (cm³)", .vnum 200),
           ("Masse Muscle (kg)", .vnum (106 / 100)),
           ("Masse Graisse Sous-cutanée (kg)", .vnum (4598 / 10000)),
           ("Masse Graisse Viscerale (kg)", .vnum (18392 / 100000)),
           ("Rapport Graisse Sous-cutanée / Viscerale", .vnum (5 / 2)),
           ("Rapport Graisse / Muscle", .vnum (16093 / 26500))] ∧
    |(16093 : ℚ) / 26500 - 6073 / 10000| < 1 / 10000 :=
  (C3_ratios_fixture 1 1 1 1 one_ne_zero one_ne_zero one_ne_zero
    one_ne_zero).2

/-- C4: whenever the metrics computation returns a result at all, it
is the ordered list of exactly 8 labeled entries, in the fixed order
volumes (muscle, subcutaneous, visceral), masses (same order), then
the two ratios. -/
theorem C4_eight_entries (files : List UploadedFile)
    (r : List (String × PyVal)) (h : analyze_voxel_data files = .ok r) :
    r.length = 8 ∧ r.map Prod.fst =
      ["Volume Muscle (cm³)", "Volume Graisse Sous-cutanée (cm³)",
       "Volume Graisse Viscerale (cm³)", "Masse Muscle (kg)",
       "Masse Graisse Sous-cutanée (kg)", "Masse Graisse Viscerale (kg)",
       "Rapport Graisse Sous-cutanée / Viscerale",
       "Rapport Graisse / Muscle"] := by
  unfold analyze_voxel_data computeResult at h
  obtain ⟨a1, h1, h⟩ := Except_bind_ok h
  obtain ⟨a2, h2, h⟩ := Except_bind_ok h
  obtain ⟨a3, h3, h⟩ := Except_bind_ok h
  obtain ⟨a4, h4, h⟩ := Except_bind_ok h
  obtain ⟨a5, h5, h⟩ := Except_bind_ok h
  obtain ⟨a6, h6, h⟩ := Except_bind_ok h
  obtain ⟨a7, h7, h⟩ := Except_bind_ok h
  obtain ⟨a8, h8, h⟩ := Except_bind_ok h
  obtain ⟨a9, h9, h⟩ := Except_bind_ok h
  injection h with h
  subst h
  exact ⟨rfl, rfl⟩

theorem C4_witness :
    ([("Volume Muscle (cm³)", PyVal.vnum 1),
      ("Volume Graisse Sous-cutanée (cm³)", PyVal.vnum 1),
      ("Volume Graisse Viscerale (cm³)", PyVal.vnum 1),
      ("Masse Muscle (kg)", PyVal.vnum (53 / 50000)),
      ("Masse Graisse Sous-cutanée (kg)", PyVal.vnum (2299 / 2500000)),
      ("Masse Graisse Viscerale (kg)", PyVal.vnum (2299 / 2500000)),
      ("Rapport Graisse Sous-cutanée / Viscerale", PyVal.vnum 1),
      ("Rapport Graisse / Muscle", PyVal.vnum (2299 / 1325))] :
      List (String × PyVal)).length = 8 ∧
    ([("Volume Muscle (cm³)", PyVal.vnum 1),
      ("Volume Graisse Sous-cutanée (cm³)", PyVal.vnum 1),
      ("Volume Graisse Viscerale (cm³)", PyVal.vnum 1),
      ("Masse Muscle (kg)", PyVal.vnum (53 / 50000)),
      ("Masse Graisse Sous-cutanée (kg)", PyVal.vnum (2299 / 2500000)),
      ("Masse Graisse Viscerale (kg)", PyVal.vnum (2299 / 2500000)),
      ("Rapport Graisse Sous-cutanée / Viscerale", PyVal.vnum 1),
      ("Rapport Graisse / Muscle", PyVal.vnum (2299 / 1325))] :
      List (String × PyVal)).map Prod.fst =
      ["Volume Muscle (cm³)", "Volume Graisse Sous-cutanée (cm³)",
       "Volume Graisse Viscerale (cm³)", "Masse Muscle (kg)",
       "Masse Graisse Sous-cutanée (kg)", "Masse Graisse Viscerale (kg)",
       "Rapport Graisse Sous-cutanée / Viscerale",
       "Rapport Graisse / Muscle"] := by
  refine C4_eight_entries [⟨"skeletal_muscle.nii.gz", [1], 10, 10, 10⟩,
    ⟨"subcutaneous_fat.nii.gz", [1], 10, 10, 10⟩,
    ⟨"torso_fat.nii.gz", [1], 10, 10, 10⟩] _ ?_
  have h : processFiles [⟨"skeletal_muscle.nii.gz", [1], 10, 10, 10⟩,
      ⟨"subcutaneous_fat.nii.gz", [1], 10, 10, 10⟩,
      ⟨"torso_fat.nii.gz", [1], 10, 10, 10⟩] =
      ⟨[("torso_fat.nii.gz", 1), ("subcutaneous_fat.nii.gz", 1),
        ("skeletal_muscle.nii.gz", 1)], .vnum 1⟩ := by
    norm_num [processFiles, processFile, file_names, initState,
      voxel_volume_of, voxel_count]
  rw [analyze_voxel_data, roleCount, roleCount, roleCount, h]
  norm_num [dget, muscle_name, torso_name, subcut_name, computeResult,
    volExpr, massExpr, truthy, pmul, pdiv, padd, Except.bind,
    masse_vol_muscle, masse_vol_graisse]

lemma computeResult_denom_none (c_m c_v c_s : ℕ) (vv : PyVal)
    (hnone : vv = .vnone → c_m = 0 ∧ c_v = 0 ∧ c_s = 0)
    (h : c_v = 0 ∨ c_m = 0) :
    computeResult c_m c_v c_s vv = .error "TypeError" := by
  cases vv with
  | vnone =>
    obtain ⟨h1, h2, h3⟩ := hnone rfl
    subst h1; subst h2; subst h3
    rfl
  | vnum q =>
    obtain ⟨x_m, hx_m⟩ := volExpr_num_isOk c_m q
    obtain ⟨x_s, hx_s⟩ := volExpr_num_isOk c_s q
    obtain ⟨y_m, hy_m⟩ := massExpr_isOk x_m masse_vol_muscle
    obtain ⟨y_s, hy_s⟩ := massExpr_isOk x_s masse_vol_graisse
    rcases h with hcv | hcm
    · subst hcv
      simp only [computeResult, hx_m, hx_s, volExpr_zero, massExpr_none,
        hy_m, hy_s, Except.bind, pdiv_none_right]
    · subst hcm
      by_cases hq : (c_v : ℚ) * q = 0
      · by_cases hcv0 : c_v = 0
        · subst hcv0
          simp only [computeResult, volExpr_zero, hx_s, massExpr_none,
            hy_s, Except.bind, pdiv_none_right]
        · have hxv : volExpr c_v (.vnum q) = .ok (.vnum ((c_v : ℚ) * q)) :=
            volExpr_pos q hcv0
          rw [hq] at hxv
          simp only [computeResult, volExpr_zero, hxv, hx_s, massExpr_none,
            massExpr_zero, hy_s, Except.bind, pdiv_none_right]
      · have hq0 : q ≠ 0 := fun h0 => hq (by rw [h0, mul_zero])
        have hcv0 : c_v ≠ 0 := fun h0 => hq (by rw [h0]; simp)
        have hxv : volExpr c_v (.vnum q) = .ok (.vnum ((c_v : ℚ) * q)) :=
          volExpr_pos q hcv0
        have hyv := massExpr_pos masse_vol_graisse hq
        have hmv : (c_v : ℚ) * q * masse_vol_graisse / 1000 ≠ 0 :=
          div_ne_zero (mul_ne_zero hq (by norm_num [masse_vol_graisse]))
            (by norm_num)
        by_cases hcs : c_s = 0
        · subst hcs
          simp only [computeResult, volExpr_zero, hxv, hyv, massExpr_none,
            Except.bind, pdiv_none_left]
        · have hsq : (c_s : ℚ) * q ≠ 0 :=
            mul_ne_zero (Nat.cast_ne_zero.mpr hcs) hq0
          have hxs : volExpr c_s (.vnum q) = .ok (.vnum ((c_s : ℚ) * q)) :=
            volExpr_pos q hcs
          have hys := massExpr_pos masse_vol_graisse hsq
          simp only [computeResult, volExpr_zero, hxv, hxs, hyv, hys,
            massExpr_none, Except.bind, pdiv_num _ hmv, padd_num,
            pdiv_none_right]

/-- C5: whenever a ratio's denominator mass is `None` — its tissue
sample absent or its retained voxel count zero — the computation raises
a type-level error (dividing `None` is invalid) instead of returning a
result list. -/
theorem C5_none_denominator (files : List UploadedFile)
    (h : roleCount files torso_name = 0 ∨ roleCount files muscle_name = 0) :
    analyze_voxel_data files = .error "TypeError" := by
  unfold analyze_voxel_data
  apply computeResult_denom_none
  · intro hv
    exact ⟨count_zero_of_vv_none _ hv, count_zero_of_vv_none _ hv,
      count_zero_of_vv_none _ hv⟩
  · exact h

theorem C5_witness :
    analyze_voxel_data [⟨"skeletal_muscle.nii.gz", [1], 10, 10, 10⟩,
      ⟨"subcutaneous_fat.nii.gz", [1], 10, 10, 10⟩] = .error "TypeError" :=
  C5_none_denominator _ (Or.inl (by decide))

lemma massExpr_vnum {x : PyVal} {d m : ℚ}
    (h : massExpr x d = .ok (.vnum m)) :
    ∃ v, x = .vnum v ∧ v ≠ 0 ∧ m = v * d / 1000 := by
  cases x with
  | vnone => rw [massExpr_none] at h; exact absurd h (by simp)
  | vnum v =>
    by_cases hv : v = 0
    · subst hv; rw [massExpr_zero] at h; exact absurd h (by simp)
    · rw [massExpr_pos d hv] at h
      simp only [Except.ok.injEq, PyVal.vnum.injEq] at h
      exact ⟨v, rfl, hv, h.symm⟩

lemma mass_value_ne_zero {e : Except String PyVal} {d m : ℚ} (hd : d ≠ 0)
    (h : (e.bind fun v => massExpr v d) = .ok (.vnum m)) : m ≠ 0 := by
  obtain ⟨x, hx, hm⟩ := Except_bind_ok h
  obtain ⟨v, _, hv, hmv⟩ := massExpr_vnum hm
  rw [hmv]
  exact div_ne_zero (mul_ne_zero hv hd) (by norm_num)

lemma volExpr_vv_zero (c : ℕ) :
    volExpr c (.vnum 0) = .ok .vnone ∨ volExpr c (.vnum 0) = .ok (.vnum 0) := by
  by_cases hc : c = 0
  · subst hc; exact Or.inl (volExpr_zero _)
  · right
    rw [volExpr_pos 0 hc, mul_zero]

lemma computeResult_vv_zero (c_m c_v c_s : ℕ) :
    computeResult c_m c_v c_s (.vnum 0) = .error "TypeError" := by
  rcases volExpr_vv_zero c_m with hm | hm <;>
  rcases volExpr_vv_zero c_v with hv | hv <;>
  rcases volExpr_vv_zero c_s with hs | hs <;>
    simp only [computeResult, hm, hv, hs, massExpr_none, massExpr_zero,
      Except.bind, pdiv_none_right]

/-- C6 counterexample: on an input of the claim's class — every tissue
file present with a positive voxel count and a zero voxel volume — the
ratio denominator mass is `None` (the zero volume is falsy under the
truthiness check), and the computation raises `"TypeError"`, not a
divide-by-zero. -/
theorem C6_counterexample :
    0 < roleCount [⟨"skeletal_muscle.nii.gz", [1], 0, 1, 1⟩,
      ⟨"subcutaneous_fat.nii.gz", [1], 0, 1, 1⟩,
      ⟨"torso_fat.nii.gz", [1], 0, 1, 1⟩] torso_name ∧
    (processFiles [⟨"skeletal_muscle.nii.gz", [1], 0, 1, 1⟩,
      ⟨"subcutaneous_fat.nii.gz", [1], 0, 1, 1⟩,
      ⟨"torso_fat.nii.gz", [1], 0, 1, 1⟩]).voxel_volume = .vnum 0 ∧
    masse_graisse_viscerale [⟨"skeletal_muscle.nii.gz", [1], 0, 1, 1⟩,
      ⟨"subcutaneous_fat.nii.gz", [1], 0, 1, 1⟩,
      ⟨"torso_fat.nii.gz", [1], 0, 1, 1⟩] = .ok .vnone ∧
    analyze_voxel_data [⟨"skeletal_muscle.nii.gz", [1], 0, 1, 1⟩,
      ⟨"subcutaneous_fat.nii.gz", [1], 0, 1, 1⟩,
      ⟨"torso_fat.nii.gz", [1], 0, 1, 1⟩] = .error "TypeError" ∧
    ("TypeError" : String) ≠ "ZeroDivisionError" := by
  have h : processFiles [⟨"skeletal_muscle.nii.gz", [1], 0, 1, 1⟩,
      ⟨"subcutaneous_fat.nii.gz", [1], 0, 1, 1⟩,
      ⟨"torso_fat.nii.gz", [1], 0, 1, 1⟩] =
      ⟨[("torso_fat.nii.gz", 1), ("subcutaneous_fat.nii.gz", 1),
        ("skeletal_muscle.nii.gz", 1)], .vnum 0⟩ := by
    norm_num [processFiles, processFile, file_names, initState,
      voxel_volume_of, voxel_count]
  refine ⟨by decide, by rw [h], ?_, ?_, by decide⟩
  · rw [masse_graisse_viscerale, roleVolume, roleCount, h]
    norm_num [dget, torso_name, volExpr, pmul, massExpr, truthy, Except.bind]
  · rw [analyze_voxel_data, roleCount, roleCount, roleCount, h]
    norm_num [dget, muscle_name, torso_name, subcut_name, computeResult,
      volExpr, massExpr, truthy, pmul, pdiv, padd, Except.bind]

/-- C6 amended: a present (numeric) mass is never zero — the mass is
only computed from a truthy (nonzero) volume and a nonzero density —
so no ratio denominator is ever a present-but-zero mass; with a
positive voxel count and a zero retained voxel volume, the volume is
the falsy number 0, the dependent mass becomes `None`, and the
computation raises a type-level error, not a divide-by-zero. -/
theorem C6_zero_volume_behavior (files : List UploadedFile) :
    (∀ m : ℚ, masse_graisse_viscerale files = .ok (.vnum m) → m ≠ 0) ∧
    (∀ m : ℚ, masse_muscle files = .ok (.vnum m) → m ≠ 0) ∧
    (∀ m : ℚ, masse_graisse_sous_cut files = .ok (.vnum m) → m ≠ 0) ∧
    ((processFiles files).voxel_volume = .vnum 0 →
      0 < roleCount files torso_name →
      masse_graisse_viscerale files = .ok .vnone ∧
      analyze_voxel_data files = .error "TypeError") := by
  refine ⟨fun m h => mass_value_ne_zero (by norm_num [masse_vol_graisse]) h,
    fun m h => mass_value_ne_zero (by norm_num [masse_vol_muscle]) h,
    fun m h => mass_value_ne_zero (by norm_num [masse_vol_graisse]) h,
    ?_⟩
  intro hvv hc
  have hcv : roleCount files torso_name ≠ 0 := by omega
  have hxv : roleVolume files torso_name = .ok (.vnum 0) := by
    rw [roleVolume, hvv, volExpr_pos 0 hcv, mul_zero]
  constructor
  · rw [masse_graisse_viscerale, hxv]
    simp [Except.bind, massExpr_zero]
  · rw [analyze_voxel_data, hvv]
    exact computeResult_vv_zero _ _ _

theorem C6_witness :
    masse_graisse_viscerale [⟨"skeletal_muscle.nii.gz", [2, 3], 1, 0, 2⟩,
      ⟨"subcutaneous_fat.nii.gz", [2, 3], 1, 0, 2⟩,
      ⟨"torso_fat.nii.gz", [2, 3], 1, 0, 2⟩] = .ok .vnone ∧
    analyze_voxel_data [⟨"skeletal_muscle.nii.gz", [2, 3], 1, 0, 2⟩,
      ⟨"subcutaneous_fat.nii.gz", [2, 3], 1, 0, 2⟩,
      ⟨"torso_fat.nii.gz", [2, 3], 1, 0, 2⟩] = .error "TypeError" :=
  (C6_zero_volume_behavior _).2.2.2
    (by norm_num [processFiles, processFile, file_names, initState,
      voxel_volume_of, voxel_count])
    (by decide)

/-- C7: a non-empty upload whose names do not exactly match the three
required names is rejected with the error listing missing and
unexpected names and the analysis never runs; matching names but a file
count other than three give a warning and the analysis never runs; the
analysis runs exactly when the three recognized names are uploaded as
exactly three files. -/
theorem C7_upload_gate (files : List UploadedFile) (hne : files ≠ []) :
    (missing_files files ≠ [] ∨ extra_files files ≠ [] →
      app_gate files = .nameError (missing_files files) (extra_files files)) ∧
    (missing_files files = [] → extra_files files = [] → files.length = 3 →
      app_gate files = .results (analyze_voxel_data files)) ∧
    (missing_files files = [] → extra_files files = [] → files.length ≠ 3 →
      app_gate files = .countWarning) ∧
    (∀ r, app_gate files = .results r →
      missing_files files = [] ∧ extra_files files = [] ∧
        files.length = 3 ∧ r = analyze_voxel_data files) := by
  refine ⟨?_, ?_, ?_, ?_⟩
  · intro h
    rw [app_gate, if_neg hne, if_pos h]
  · intro h1 h2 h3
    rw [app_gate, if_neg hne, if_neg (by simp [h1, h2]), if_pos h3]
  · intro h1 h2 h3
    rw [app_gate, if_neg hne, if_neg (by simp [h1, h2]), if_neg h3]
  · intro r h
    by_cases hm : missing_files files = []
    · by_cases hx : extra_files files = []
      · by_cases hl : files.length = 3
        · rw [app_gate, if_neg hne, if_neg (by simp [hm, hx]),
            if_pos hl] at h
          injection h with h
          exact ⟨hm, hx, hl, h.symm⟩
        · rw [app_gate, if_neg hne, if_neg (by simp [hm, hx]),
            if_neg hl] at h
          exact absurd h (by simp)
      · rw [app_gate, if_neg hne, if_pos (Or.inr hx)] at h
        exact absurd h (by simp)
    · rw [app_gate, if_neg hne, if_pos (Or.inl hm)] at h
      exact absurd h (by simp)

theorem C7_witness :
    app_gate [⟨"wrong_name.nii.gz", [1], 10, 10, 10⟩] =
      .nameError (missing_files [⟨"wrong_name.nii.gz", [1], 10, 10, 10⟩])
        (extra_files [⟨"wrong_name.nii.gz", [1], 10, 10, 10⟩]) :=
  (C7_upload_gate _ (by decide)).1 (Or.inl (by decide))

/-- C8: a single voxel volume is retained per session — that of the
last-processed recognized file; every role volume with a positive
retained count is computed from that one last-seen value, and nothing
is raised when earlier files carried different header spacings (they
are silently overwritten). -/
theorem C8_last_seen (files : List UploadedFile) (g : UploadedFile)
    (hlast : lastRec files = some g) :
    (processFiles files).voxel_volume = .vnum (voxel_volume_of g) ∧
    (∀ role, 0 < roleCount files role →
      roleVolume files role =
        .ok (.vnum ((roleCount files role : ℚ) * voxel_volume_of g))) := by
  have hvv : (processFiles files).voxel_volume =
      .vnum (voxel_volume_of g) := by
    unfold processFiles
    rw [lastRec_vv files initState, hlast]
  refine ⟨hvv, fun role hc => ?_⟩
  rw [roleVolume, hvv, volExpr_pos _ (by omega)]

theorem C8_witness :
    (processFiles [⟨"skeletal_muscle.nii.gz", [1], 10, 10, 10⟩,
      ⟨"torso_fat.nii.gz", [1], 2, 5, 100⟩]).voxel_volume =
      .vnum (voxel_volume_of ⟨"torso_fat.nii.gz", [1], 2, 5, 100⟩) ∧
    roleVolume [⟨"skeletal_muscle.nii.gz", [1], 10, 10, 10⟩,
      ⟨"torso_fat.nii.gz", [1], 2, 5, 100⟩] muscle_name =
      .ok (.vnum ((roleCount [⟨"skeletal_muscle.nii.gz", [1], 10, 10, 10⟩,
        ⟨"torso_fat.nii.gz", [1], 2, 5, 100⟩] muscle_name : ℚ) *
        voxel_volume_of ⟨"torso_fat.nii.gz", [1], 2, 5, 100⟩)) := by
  have h := C8_last_seen [⟨"skeletal_muscle.nii.gz", [1], 10, 10, 10⟩,
    ⟨"torso_fat.nii.gz", [1], 2, 5, 100⟩]
    ⟨"torso_fat.nii.gz", [1], 2, 5, 100⟩ (by decide)
  exact ⟨h.1, h.2 muscle_name (by decide)⟩

/-- C9: a recognized processed file stores, under its name, the count
of voxels of strictly positive intensity, and sets the retained voxel
volume to the product of its three header spacings divided by 1000
(spacings are physical sizes, hence nonnegative, making the source's
`abs` the identity). -/
theorem C9_count_and_volume (st : AnalysisState) (f : UploadedFile)
    (hrec : f.name ∈ file_names) :
    dget (processFile st f).voxel_data f.name =
      f.data.countP (fun x => decide (0 < x)) ∧
    (processFile st f).voxel_volume =
      .vnum (|f.zoom0 * f.zoom1 * f.zoom2| / 1000) ∧
    (0 ≤ f.zoom0 * f.zoom1 * f.zoom2 →
      (processFile st f).voxel_volume =
        .vnum (f.zoom0 * f.zoom1 * f.zoom2 / 1000)) := by
  rw [processFile, if_pos hrec]
  refine ⟨by simp [dget, voxel_count], rfl, fun h => ?_⟩
  show PyVal.vnum (voxel_volume_of f) = _
  rw [voxel_volume_of, abs_of_nonneg h]

theorem C9_witness :
    dget (processFile initState
      ⟨"torso_fat.nii.gz", [1, -2, 3], 2, 5, 100⟩).voxel_data
      "torso_fat.nii.gz" =
      ([1, -2, 3] : List ℚ).countP (fun x => decide (0 < x)) ∧
    (processFile initState
      ⟨"torso_fat.nii.gz", [1, -2, 3], 2, 5, 100⟩).voxel_volume =
      .vnum (|(2 : ℚ) * 5 * 100| / 1000) ∧
    (processFile initState
      ⟨"torso_fat.nii.gz", [1, -2, 3], 2, 5, 100⟩).voxel_volume =
      .vnum ((2 : ℚ) * 5 * 100 / 1000) := by
  have h := C9_count_and_volume initState
    ⟨"torso_fat.nii.gz", [1, -2, 3], 2, 5, 100⟩ (by decide)
  exact ⟨h.1, h.2.1, h.2.2 (by norm_num)⟩

/-- C10: when all three roles have positive retained counts and the
retained voxel volume is a positive number, the computation succeeds
with all eight values numeric — both ratio denominators are nonzero
numbers, so no division sees `None` and no divide-by-zero occurs. -/
theorem C10_all_present_success (files : List UploadedFile) (q : ℚ)
    (hq : (processFiles files).voxel_volume = .vnum q) (hqpos : 0 < q)
    (hm : 0 < roleCount files muscle_name)
    (hs : 0 < roleCount files subcut_name)
    (hv : 0 < roleCount files torso_name) :
    (roleCount files torso_name : ℚ) * q * masse_vol_graisse / 1000 ≠ 0 ∧
    (roleCount files muscle_name : ℚ) * q * masse_vol_muscle / 1000 ≠ 0 ∧
    analyze_voxel_data files =
      .ok [("Volume Muscle (cm³)",
             .vnum ((roleCount files muscle_name : ℚ) * q)),
           ("Volume Graisse Sous-cutanée (cm³)",
             .vnum ((roleCount files subcut_name : ℚ) * q)),
           ("Volume Graisse Viscerale (cm³)",
             .vnum ((roleCount files torso_name : ℚ) * q)),
           ("Masse Muscle (kg)",
             .vnum ((roleCount files muscle_name : ℚ) * q *
               masse_vol_muscle / 1000)),
           ("Masse Graisse Sous-cutanée (kg)",
             .vnum ((roleCount files subcut_name : ℚ) * q *
               masse_vol_graisse / 1000)),
           ("Masse Graisse Viscerale (kg)",
             .vnum ((roleCount files torso_name : ℚ) * q *
               masse_vol_graisse / 1000)),
           ("Rapport Graisse Sous-cutanée / Viscerale",
             .vnum (((roleCount files subcut_name : ℚ) * q *
                 masse_vol_graisse / 1000) /
               ((roleCount files torso_name : ℚ) * q *
                 masse_vol_graisse / 1000))),
           ("Rapport Graisse / Muscle",
             .vnum (((roleCount files subcut_name : ℚ) * q *
                   masse_vol_graisse / 1000 +
                 (roleCount files torso_name : ℚ) * q *
                   masse_vol_graisse / 1000) /
               ((roleCount files muscle_name : ℚ) * q *
                 masse_vol_muscle / 1000)))] := by
  have hqne : q ≠ 0 := ne_of_gt hqpos
  refine ⟨div_ne_zero (mul_ne_zero (mul_ne_zero
      (Nat.cast_ne_zero.mpr (by omega)) hqne)
      (by norm_num [masse_vol_graisse])) (by norm_num),
    div_ne_zero (mul_ne_zero (mul_ne_zero
      (Nat.cast_ne_zero.mpr (by omega)) hqne)
      (by norm_num [masse_vol_muscle])) (by norm_num), ?_⟩
  rw [analyze_voxel_data, hq]
  exact computeResult_pos _ _ _ _ (by omega) (by omega) (by omega) hqne

theorem C10_witness :
    (roleCount [⟨"skeletal_muscle.nii.gz", [1], 10, 10, 10⟩,
      ⟨"subcutaneous_fat.nii.gz", [1], 10, 10, 10⟩,
      ⟨"torso_fat.nii.gz", [1], 10, 10, 10⟩] torso_name : ℚ) * 1 *
        masse_vol_graisse / 1000 ≠ 0 ∧
    (roleCount [⟨"skeletal_muscle.nii.gz", [1], 10, 10, 10⟩,
      ⟨"subcutaneous_fat.nii.gz", [1], 10, 10, 10⟩,
      ⟨"torso_fat.nii.gz", [1], 10, 10, 10⟩] muscle_name : ℚ) * 1 *
        masse_vol_muscle / 1000 ≠ 0 ∧
    analyze_voxel_data [⟨"skeletal_muscle.nii.gz", [1], 10, 10, 10⟩,
      ⟨"subcutaneous_fat.nii.gz", [1], 10, 10, 10⟩,
      ⟨"torso_fat.nii.gz", [1], 10, 10, 10⟩] =
      .ok [("Volume Muscle (cm³)",
             .vnum ((roleCount [⟨"skeletal_muscle.nii.gz", [1], 10, 10, 10⟩,
               ⟨"subcutaneous_fat.nii.gz", [1], 10, 10, 10⟩,
               ⟨"torso_fat.nii.gz", [1], 10, 10, 10⟩] muscle_name : ℚ) * 1)),
           ("Volume Graisse Sous-cutanée (cm³)",
             .vnum ((roleCount [⟨"skeletal_muscle.nii.gz", [1], 10, 10, 10⟩,
               ⟨"subcutaneous_fat.nii.gz", [1], 10, 10, 10⟩,
               ⟨"torso_fat.nii.gz", [1], 10, 10, 10⟩] subcut_name : ℚ) * 1)),
           ("Volume Graisse Viscerale (cm³)",
             .vnum ((roleCount [⟨"skeletal_muscle.nii.gz", [1], 10, 10, 10⟩,
               ⟨"subcutaneous_fat.nii.gz", [1], 10, 10, 10⟩,
               ⟨"torso_fat.nii.gz", [1], 10, 10, 10⟩] torso_name : ℚ) * 1)),
           ("Masse Muscle (kg)",
             .vnum ((roleCount [⟨"skeletal_muscle.nii.gz", [1], 10, 10, 10⟩,
               ⟨"subcutaneous_fat.nii.gz", [1], 10, 10, 10⟩,
               ⟨"torso_fat.nii.gz", [1], 10, 10, 10⟩] muscle_name : ℚ) * 1 *
               masse_vol_muscle / 1000)),
           ("Masse Graisse Sous-cutanée (kg)",
             .vnum ((roleCount [⟨"skeletal_muscle.nii.gz", [1], 10, 10, 10⟩,
               ⟨"subcutaneous_fat.nii.gz", [1], 10, 10, 10⟩,
               ⟨"torso_fat.nii.gz", [1], 10, 10, 10⟩] subcut_name : ℚ) * 1 *
               masse_vol_graisse / 1000)),
           ("Masse Graisse Viscerale (kg)",
             .vnum ((roleCount [⟨"skeletal_muscle.nii.gz", [1], 10, 10, 10⟩,
               ⟨"subcutaneous_fat.nii.gz", [1], 10, 10, 10⟩,
               ⟨"torso_fat.nii.gz", [1], 10, 10, 10⟩] torso_name : ℚ) * 1 *
               masse_vol_graisse / 1000)),
           ("Rapport Graisse Sous-cutanée / Viscerale",
             .vnum (((roleCount [⟨"skeletal_muscle.nii.gz", [1], 10, 10, 10⟩,
                 ⟨"subcutaneous_fat.nii.gz", [1], 10, 10, 10⟩,
                 ⟨"torso_fat.nii.gz", [1], 10, 10, 10⟩] subcut_name : ℚ) * 1 *
                 masse_vol_graisse / 1000) /
               ((roleCount [⟨"skeletal_muscle.nii.gz", [1], 10, 10, 10⟩,
                 ⟨"subcutaneous_fat.nii.gz", [1], 10, 10, 10⟩,
                 ⟨"torso_fat.nii.gz", [1], 10, 10, 10⟩] torso_name : ℚ) * 1 *
                 masse_vol_graisse / 1000))),
           ("Rapport Graisse / Muscle",
             .vnum (((roleCount [⟨"skeletal_muscle.nii.gz", [1], 10, 10, 10⟩,
                   ⟨"subcutaneous_fat.nii.gz", [1], 10, 10, 10⟩,
                   ⟨"torso_fat.nii.gz", [1], 10, 10, 10⟩] subcut_name : ℚ) * 1 *
                   masse_vol_graisse / 1000 +
                 (roleCount [⟨"skeletal_muscle.nii.gz", [1], 10, 10, 10⟩,
                   ⟨"subcutaneous_fat.nii.gz", [1], 10, 10, 10⟩,
                   ⟨"torso_fat.nii.gz", [1], 10, 10, 10⟩] torso_name : ℚ) * 1 *
                   masse_vol_graisse / 1000) /
               ((roleCount [⟨"skeletal_muscle.nii.gz", [1], 10, 10, 10⟩,
                 ⟨"subcutaneous_fat.nii.gz", [1], 10, 10, 10⟩,
                 ⟨"torso_fat.nii.gz", [1], 10, 10, 10⟩] muscle_name : ℚ) * 1 *
                 masse_vol_muscle / 1000)))] :=
  C10_all_present_success _ 1
    (by norm_num [processFiles, processFile, file_names, initState,
      voxel_volume_of, voxel_count])
    one_pos (by decide) (by decide) (by decide)
